import Mathlib

/-!
Verification development for the PostgreSQL frontend protocol engine
(package `network`, file with `PgIO`, and `internal/driver/pg_stmt.go`).

Modelling conventions.

Bytes are `Nat` values in `0..255`; Go strings and `[]byte` values are
`List Nat` of their bytes.  The source decodes each backend message into a
`PgMessage` whose `Content` buffer keeps the four length bytes at offsets
0..3 and whose cursor `Position` starts at 4; we model only the payload
after the length field, so a cursor read is a `take`/`drop` from the front
of `content`.  The framing layer itself (`PgMessage.encode`, the cursor
methods, the `Identifies` constants) is declared outside the two source
files, so those pieces are modelled from the spec where marked; the wire is
modelled at message granularity: the buffered reader is the list of backend
messages it will deliver, and a `send` appends the frontend messages handed
to `conn.Write` to a trace.  An exhausted reader models a read failure (in
the source the `ReadByte` of the next message fails and sets `IOError`).
Whether `conn.Write` succeeds is the boolean `wOk` parameter.  Go `nil`
versus non-`nil` byte slices are `Option (List Nat)`.  Argument values are
modelled after the external `value2bytes` codec (out of scope per the
spec), i.e. as the byte string the codec produces, or `none` for a Go
`nil` argument.
-/

namespace Pg

abbrev Byte := Nat

/-- Modelled from the spec: the message identifier byte constants
(`Identifies` values) are declared outside the source files; values are the
ASCII codes from the spec table in section 6. -/
def IdentifiesAuth : Byte := 82

def IdentifiesBackendKeyData : Byte := 75

def IdentifiesCommandComplete : Byte := 67

def IdentifiesDataRow : Byte := 68

def IdentifiesErrorResponse : Byte := 69

def IdentifiesParameterDescription : Byte := 116

def IdentifiesParameterStatus : Byte := 83

def IdentifiesReadyForQuery : Byte := 90

def IdentifiesRowDescription : Byte := 84

def IdentifiesBind : Byte := 66

def IdentifiesClose : Byte := 67

def IdentifiesDescribe : Byte := 68

def IdentifiesExecute : Byte := 69

def IdentifiesParse : Byte := 80

def IdentifiesPasswordMessage : Byte := 112

def IdentifiesQuery : Byte := 81

def IdentifiesSync : Byte := 83

def IdentifiesTerminate : Byte := 88

/-- A decoded protocol message: identifier byte and the payload after the
length field (source: `PgMessage` with `Position` initialised to 4). -/
structure PgMessage where
  id : Byte
  content : List Byte
  deriving DecidableEq, Repr

/-- Big-endian value of a byte list. -/
def beVal (bs : List Byte) : Nat := bs.foldl (fun a b => a * 256 + b) 0

/-- Modelled from the spec: big-endian encoding of a value into a fixed
number of bytes (the primitive writes used by `PgMessage.addInt16` and
`addInt32`, declared outside the source files). -/
def natBE : Nat → Nat → List Byte
  | 0, _ => []
  | w + 1, n => natBE w (n / 256) ++ [n % 256]

/-- Modelled from the spec: `addInt32` writes a Go `int` as 4 big-endian
bytes, two's complement for negative values. -/
def addInt32 (n : Int) : List Byte := natBE 4 (n % (4294967296 : Int)).toNat

/-- Modelled from the spec: `addInt16` writes 2 big-endian bytes. -/
def addInt16 (n : Nat) : List Byte := natBE 2 (n % 65536)

/-- Modelled from the spec: `addString` writes the bytes of the string
followed by a NUL terminator. -/
def addStringB (s : List Byte) : List Byte := s ++ [0]

/-- Modelled from the spec: the cursor read of a NUL-terminated string
returns the bytes before the first NUL. -/
def cStr (bs : List Byte) : List Byte := bs.takeWhile (fun b => b ≠ 0)

/-- Modelled from the spec: the rest of the payload after a NUL-terminated
string read. -/
def cStrRest (bs : List Byte) : List Byte := (bs.dropWhile (fun b => b ≠ 0)).drop 1

/-- Errors visible to the engine.  `server` is a parsed ErrorResponse
(source `ParseError`, declared outside the source files; modelled from the
spec with the raw payload as the error identity).  `badConn` is
`driver.ErrBadConn`; `ioWrite` and `ioRead` are socket-level failures;
`unexpectedAuth` is the `unexpected authentication response` error. -/
inductive PgErr where
  | badConn
  | ioWrite
  | ioRead
  | unexpectedAuth
  | server (payload : List Byte)
  deriving DecidableEq, Repr

/-- Modelled from the spec: `ParseError` parses the severity, SQLSTATE,
message etc. fields of an ErrorResponse payload; the claims only need the
error's identity, kept here as the raw payload. -/
def ParseErrorM (v : PgMessage) : PgErr := PgErr.server v.content

/-- Session state (source struct `PgIO`).  `sent` is the trace of messages
handed to `conn.Write`; `connClosed` records a `conn.Close()` call;
`password` and `user` are the projections `dsn.Password` and
`dsn.Parameter` at key `user` that the engine reads. -/
structure PgIO where
  txStatus : Byte
  serverPid : Nat
  backendKey : Nat
  IOError : Option PgErr
  sent : List PgMessage
  connClosed : Bool
  password : List Byte
  user : List Byte
  deriving DecidableEq, Repr

/-- Source `receivePgMsg`: read messages, appending each to the result,
until the first one whose identifier equals `sep` (inclusive); `none`
models a read failure (reader exhausted).  Returns the consumed list and
the remaining wire. -/
def receivePgMsg (sep : Byte) : List PgMessage → Option (List PgMessage × List PgMessage)
  | [] => none
  | m :: rest =>
    if m.id = sep then some ([m], rest)
    else
      match receivePgMsg sep rest with
      | none => none
      | some (ms, rem) => some (m :: ms, rem)

/-- Source `send`: concatenate the encoded messages into one `conn.Write`;
`IOError` is set to the write's result (so a successful write stores
`nil`). -/
def send (wOk : Bool) (pi : PgIO) (list : List PgMessage) : PgIO × Option PgErr :=
  let e := if wOk then none else some PgErr.ioWrite
  ({ pi with sent := pi.sent ++ list, IOError := e }, e)

/-- Column description (source `PgColumn`; field layout from the spec,
section 3). -/
structure PgColumn where
  name : List Byte
  tableOid : Nat
  attrNum : Nat
  typeOid : Nat
  typeSize : Nat
  typeMod : Nat
  format : Nat
  deriving DecidableEq, Repr

/-- Modelled from the spec: the per-column part of `PgMessage.columns`
(declared outside the source files): for each column a NUL-terminated name
then int32 table OID, int16 attribute number, int32 type OID, int16 type
size, int32 type modifier, int16 format code, all big-endian. -/
def columnsN : Nat → List Byte → List PgColumn
  | 0, _ => []
  | n + 1, bs =>
    let nm := cStr bs
    let bs1 := cStrRest bs
    { name := nm, tableOid := beVal (bs1.take 4), attrNum := beVal ((bs1.drop 4).take 2),
      typeOid := beVal ((bs1.drop 6).take 4), typeSize := beVal ((bs1.drop 10).take 2),
      typeMod := beVal ((bs1.drop 12).take 4), format := beVal ((bs1.drop 16).take 2) }
      :: columnsN n (bs1.drop 18)

/-- Modelled from the spec: `PgMessage.columns` reads an int16 column count
then that many column descriptors. -/
def columns (content : List Byte) : List PgColumn :=
  columnsN (beVal (content.take 2)) (content.drop 2)

/-- The per-column body of the DataRow loop (source lines in `QueryNoArgs`
and `ParseQuery`): for each column an int32 length; `4294967295` denotes
NULL and appends a nil value, otherwise that many bytes are read.  Returns
the length list and the value list in column order. -/
def parseColsN : Nat → List Byte → List Nat × List (Option (List Byte))
  | 0, _ => ([], [])
  | n + 1, bs =>
    let l := beVal (bs.take 4)
    let bs1 := bs.drop 4
    if l = 4294967295 then
      let r := parseColsN n bs1
      (l :: r.1, none :: r.2)
    else
      let r := parseColsN n (bs1.drop l)
      (l :: r.1, some (bs1.take l) :: r.2)

/-- DataRow parsing: int16 column count, then the per-column loop. -/
def parseDataRow (content : List Byte) : List Nat × List (Option (List Byte)) :=
  parseColsN (beVal (content.take 2)) (content.drop 2)

/-- Frontend message builders (source: the message construction in each
operation; `NewPgMessage` plus the primitive adds). -/
def queryMsg (q : List Byte) : PgMessage :=
  { id := IdentifiesQuery, content := addStringB q }

def parseMsg (name query : List Byte) : PgMessage :=
  { id := IdentifiesParse, content := addStringB name ++ addStringB query ++ addInt16 0 }

def describeMsg (name : List Byte) : PgMessage :=
  { id := IdentifiesDescribe, content := [83] ++ addStringB name }

def syncMsg : PgMessage := { id := IdentifiesSync, content := [] }

/-- The Bind argument serialisation (source `ParseExec` and `ParseQuery`):
a nil argument is written as int32 −1 with no value bytes, otherwise the
int32 byte length then the bytes produced by `value2bytes`. -/
def bindArgBytes : Option (List Byte) → List Byte
  | none => addInt32 (-1)
  | some b => addInt32 b.length ++ b

def bindMsg (name : List Byte) (args : List (Option (List Byte))) : PgMessage :=
  { id := IdentifiesBind,
    content := addStringB [] ++ addStringB name ++ addInt16 0 ++ addInt16 args.length
      ++ (args.map bindArgBytes).flatten ++ addInt16 0 }

def executeMsg : PgMessage :=
  { id := IdentifiesExecute, content := addStringB [] ++ addInt32 0 }

def closeMsg (name : List Byte) : PgMessage :=
  { id := IdentifiesClose, content := [83] ++ addStringB name }

def terminateMsg : PgMessage := { id := IdentifiesTerminate, content := [] }

def passwordMsg (body : List Byte) : PgMessage :=
  { id := IdentifiesPasswordMessage, content := addStringB body }

/-- Go `strings.Split` on a single space: every space starts a new field,
empty fields preserved. -/
def splitSp : List Byte → List (List Byte)
  | [] => [[]]
  | c :: rest =>
    let r := splitSp rest
    if c = 32 then [] :: r
    else
      match r with
      | [] => [[c]]
      | f :: fs => (c :: f) :: fs

/-- Decimal digit run for `strconv.Atoi`: `none` unless nonempty and all
bytes are ASCII digits. -/
def digitsValAux : List Byte → Nat → Option Nat
  | [], acc => some acc
  | c :: rest, acc =>
    if 48 ≤ c ∧ c ≤ 57 then digitsValAux rest (acc * 10 + (c - 48)) else none

def digitsVal : List Byte → Option Nat
  | [] => none
  | bs => digitsValAux bs 0

/-- Go `strconv.Atoi` as used here, i.e. `ParseInt(s, 10, 0)` on a 64-bit
platform: the value on success, 0 on a syntax error, and the nearest int64
bound on range overflow (`ErrRange`); the source discards the error in
either case, keeping the returned value. -/
def atoi (s : List Byte) : Int :=
  match s with
  | [] => 0
  | c :: rest =>
    if c = 45 then
      match digitsVal rest with
      | none => 0
      | some n => -(min (n : Int) 9223372036854775808)
    else if c = 43 then
      match digitsVal rest with
      | none => 0
      | some n => min (n : Int) 9223372036854775807
    else
      match digitsVal s with
      | none => 0
      | some n => min (n : Int) 9223372036854775807

/-- Accumulator for the `QueryNoArgs` message loop. -/
structure QNAAcc where
  cols : List PgColumn
  fieldLen : List (List Nat)
  rows : List (List (Option (List Byte)))
  err : Option PgErr
  tx : Byte
  deriving DecidableEq, Repr

/-- One iteration of the `QueryNoArgs` classification switch. -/
def qnaStep (acc : QNAAcc) (v : PgMessage) : QNAAcc :=
  if v.id = IdentifiesErrorResponse then { acc with err := some (ParseErrorM v) }
  else if v.id = IdentifiesDataRow then
    let r := parseDataRow v.content
    { acc with fieldLen := acc.fieldLen ++ [r.1], rows := acc.rows ++ [r.2] }
  else if v.id = IdentifiesRowDescription then { acc with cols := columns v.content }
  else if v.id = IdentifiesReadyForQuery then { acc with tx := v.content.headD 0 }
  else acc

def qnaLoop (list : List PgMessage) (acc : QNAAcc) : QNAAcc := list.foldl qnaStep acc

structure QueryOut where
  pi : PgIO
  wire : List PgMessage
  cols : List PgColumn
  fieldLen : List (List Nat)
  rows : List (List (Option (List Byte)))
  err : Option PgErr
  deriving DecidableEq, Repr

/-- Source `QueryNoArgs`: send a Query message, receive until
ReadyForQuery, classify each message. -/
def QueryNoArgs (wOk : Bool) (wire : List PgMessage) (pi : PgIO) (query : List Byte) : QueryOut :=
  let s := send wOk pi [queryMsg query]
  match s.2 with
  | some e => { pi := s.1, wire := wire, cols := [], fieldLen := [], rows := [], err := some e }
  | none =>
    match receivePgMsg IdentifiesReadyForQuery wire with
    | none =>
      { pi := { s.1 with IOError := some PgErr.ioRead }, wire := [], cols := [],
        fieldLen := [], rows := [], err := some PgErr.ioRead }
    | some (list, rem) =>
      let a := qnaLoop list { cols := [], fieldLen := [], rows := [], err := none, tx := s.1.txStatus }
      { pi := { s.1 with txStatus := a.tx }, wire := rem, cols := a.cols,
        fieldLen := a.fieldLen, rows := a.rows, err := a.err }

/-- Accumulator for the `Parse` message loop. -/
structure PAcc where
  cols : List PgColumn
  parameters : List Nat
  err : Option PgErr
  tx : Byte
  deriving DecidableEq, Repr

/-- The ParameterDescription body: int16 count then that many int32
OIDs. -/
def parseOids : Nat → List Byte → List Nat
  | 0, _ => []
  | n + 1, bs => beVal (bs.take 4) :: parseOids n (bs.drop 4)

def pStep (acc : PAcc) (v : PgMessage) : PAcc :=
  if v.id = IdentifiesErrorResponse then { acc with err := some (ParseErrorM v) }
  else if v.id = IdentifiesParameterDescription then
    { acc with parameters := acc.parameters ++ parseOids (beVal (v.content.take 2)) (v.content.drop 2) }
  else if v.id = IdentifiesRowDescription then { acc with cols := columns v.content }
  else if v.id = IdentifiesReadyForQuery then { acc with tx := v.content.headD 0 }
  else acc

def pLoop (list : List PgMessage) (acc : PAcc) : PAcc := list.foldl pStep acc

structure ParseOut where
  pi : PgIO
  wire : List PgMessage
  cols : List PgColumn
  parameters : List Nat
  err : Option PgErr
  deriving DecidableEq, Repr

/-- Source `Parse`: send Parse + Describe + Sync in one write, receive
until ReadyForQuery, collect parameter OIDs and columns. -/
def Parse (wOk : Bool) (wire : List PgMessage) (pi : PgIO) (name query : List Byte) : ParseOut :=
  let s := send wOk pi [parseMsg name query, describeMsg name, syncMsg]
  match s.2 with
  | some e => { pi := s.1, wire := wire, cols := [], parameters := [], err := some e }
  | none =>
    match receivePgMsg IdentifiesReadyForQuery wire with
    | none =>
      { pi := { s.1 with IOError := some PgErr.ioRead }, wire := [], cols := [],
        parameters := [], err := some PgErr.ioRead }
    | some (list, rem) =>
      let a := pLoop list { cols := [], parameters := [], err := none, tx := s.1.txStatus }
      { pi := { s.1 with txStatus := a.tx }, wire := rem, cols := a.cols,
        parameters := a.parameters, err := a.err }

/-- Accumulator for the `ParseExec` message loop. -/
structure PEAcc where
  n : Int
  err : Option PgErr
  tx : Byte
  deriving DecidableEq, Repr

/-- One iteration of the `ParseExec` switch.  On CommandComplete the tag is
split on spaces and the count is taken from the second field only when the
split has exactly two fields. -/
def peStep (acc : PEAcc) (v : PgMessage) : PEAcc :=
  if v.id = IdentifiesErrorResponse then { acc with err := some (ParseErrorM v) }
  else if v.id = IdentifiesCommandComplete then
    let rs := splitSp (cStr v.content)
    if rs.length = 2 then { acc with n := atoi (rs.getD 1 []) } else acc
  else if v.id = IdentifiesReadyForQuery then { acc with tx := v.content.headD 0 }
  else acc

def peLoop (list : List PgMessage) (acc : PEAcc) : PEAcc := list.foldl peStep acc

structure ExecOut where
  pi : PgIO
  wire : List PgMessage
  n : Int
  err : Option PgErr
  deriving DecidableEq, Repr

/-- Source `ParseExec`: send Bind + Execute + Sync, receive until
ReadyForQuery, extract the affected-row count from CommandComplete. -/
def ParseExec (wOk : Bool) (wire : List PgMessage) (pi : PgIO) (name : List Byte)
    (args : List (Option (List Byte))) : ExecOut :=
  let s := send wOk pi [bindMsg name args, executeMsg, syncMsg]
  match s.2 with
  | some e => { pi := s.1, wire := wire, n := 0, err := some e }
  | none =>
    match receivePgMsg IdentifiesReadyForQuery wire with
    | none =>
      { pi := { s.1 with IOError := some PgErr.ioRead }, wire := [], n := 0,
        err := some PgErr.ioRead }
    | some (list, rem) =>
      let a := peLoop list { n := 0, err := none, tx := s.1.txStatus }
      { pi := { s.1 with txStatus := a.tx }, wire := rem, n := a.n, err := a.err }

/-- Accumulator for the `ParseQuery` message loop (no RowDescription case
in the source). -/
structure PQAcc where
  fieldLen : List (List Nat)
  rows : List (List (Option (List Byte)))
  err : Option PgErr
  tx : Byte
  deriving DecidableEq, Repr

def pqStep (acc : PQAcc) (v : PgMessage) : PQAcc :=
  if v.id = IdentifiesErrorResponse then { acc with err := some (ParseErrorM v) }
  else if v.id = IdentifiesDataRow then
    let r := parseDataRow v.content
    { acc with fieldLen := acc.fieldLen ++ [r.1], rows := acc.rows ++ [r.2] }
  else if v.id = IdentifiesReadyForQuery then { acc with tx := v.content.headD 0 }
  else acc

def pqLoop (list : List PgMessage) (acc : PQAcc) : PQAcc := list.foldl pqStep acc

structure RowsOut where
  pi : PgIO
  wire : List PgMessage
  fieldLen : List (List Nat)
  rows : List (List (Option (List Byte)))
  err : Option PgErr
  deriving DecidableEq, Repr

/-- Source `ParseQuery`: send Bind + Execute + Sync, receive until
ReadyForQuery, accumulate DataRow lengths and values. -/
def ParseQuery (wOk : Bool) (wire : List PgMessage) (pi : PgIO) (name : List Byte)
    (args : List (Option (List Byte))) : RowsOut :=
  let s := send wOk pi [bindMsg name args, executeMsg, syncMsg]
  match s.2 with
  | some e => { pi := s.1, wire := wire, fieldLen := [], rows := [], err := some e }
  | none =>
    match receivePgMsg IdentifiesReadyForQuery wire with
    | none =>
      { pi := { s.1 with IOError := some PgErr.ioRead }, wire := [], fieldLen := [],
        rows := [], err := some PgErr.ioRead }
    | some (list, rem) =>
      let a := pqLoop list { fieldLen := [], rows := [], err := none, tx := s.1.txStatus }
      { pi := { s.1 with txStatus := a.tx }, wire := rem, fieldLen := a.fieldLen,
        rows := a.rows, err := a.err }

structure CloseOut where
  pi : PgIO
  wire : List PgMessage
  err : Option PgErr
  deriving DecidableEq, Repr

/-- The `CloseParse` message loop: ReadyForQuery updates the transaction
status, ErrorResponse is captured. -/
def cpStep (acc : Option PgErr × Byte) (v : PgMessage) : Option PgErr × Byte :=
  if v.id = IdentifiesReadyForQuery then (acc.1, v.content.headD 0)
  else if v.id = IdentifiesErrorResponse then (some (ParseErrorM v), acc.2)
  else acc

def cpLoop (list : List PgMessage) (acc : Option PgErr × Byte) : Option PgErr × Byte :=
  list.foldl cpStep acc

/-- Source `CloseParse`: send Close + Sync, receive until ReadyForQuery,
absorb any ErrorResponse. -/
def CloseParse (wOk : Bool) (wire : List PgMessage) (pi : PgIO) (name : List Byte) : CloseOut :=
  let s := send wOk pi [closeMsg name, syncMsg]
  match s.2 with
  | some e => { pi := s.1, wire := wire, err := some e }
  | none =>
    match receivePgMsg IdentifiesReadyForQuery wire with
    | none =>
      { pi := { s.1 with IOError := some PgErr.ioRead }, wire := [], err := some PgErr.ioRead }
    | some (list, rem) =>
      let a := cpLoop list (none, s.1.txStatus)
      { pi := { s.1 with txStatus := a.2 }, wire := rem, err := a.1 }

/-- Source `Terminate`: send a Terminate message; only when the send fails
does it close the socket and set `IOError` to `driver.ErrBadConn`; the
returned error is the send's error. -/
def Terminate (wOk : Bool) (pi : PgIO) : PgIO × Option PgErr :=
  let s := send wOk pi [terminateMsg]
  match s.2 with
  | some e => ({ s.1 with connClosed := true, IOError := some PgErr.badConn }, some e)
  | none => (s.1, none)

/-- The check run over the list received after a password message (source
`auth`, cases 3 and 5): the first Authentication message with a nonzero
code aborts with the `unexpected authentication response` error. -/
def checkAuthList : List PgMessage → Option PgErr
  | [] => none
  | v :: rest =>
    if v.id = IdentifiesAuth ∧ beVal (v.content.take 4) ≠ 0 then some PgErr.unexpectedAuth
    else checkAuthList rest

/-- The `md5` prefix bytes of the MD5 password response. -/
def md5Lit : List Byte := [109, 100, 53]

/-- Source `auth`.  The switch on the first int32 of the payload: 0 is
success; 3 sends the cleartext password; 5 reads a 4-byte salt and sends
the salted double-MD5 response; the switch has no default case, so any
other code falls through and returns without error.  `md5hex` is the
source's `Md5` helper (hex rendering of the stdlib MD5 digest, which is
external to the repository), kept abstract as a parameter. -/
def auth (md5hex : List Byte → List Byte) (wOk : Bool) (wire : List PgMessage)
    (pi : PgIO) (msg : PgMessage) : PgIO × List PgMessage × Option PgErr :=
  let code := beVal (msg.content.take 4)
  if code = 0 then (pi, wire, none)
  else if code = 3 then
    let s := send wOk pi [passwordMsg pi.password]
    match s.2 with
    | some e => (s.1, wire, some e)
    | none =>
      match receivePgMsg IdentifiesAuth wire with
      | none => ({ s.1 with IOError := some PgErr.ioRead }, [], some PgErr.ioRead)
      | some (list, rem) => (s.1, rem, checkAuthList list)
  else if code = 5 then
    let salt := (msg.content.drop 4).take 4
    let body := md5Lit ++ md5hex (md5hex (pi.password ++ pi.user) ++ salt)
    let s := send wOk pi [passwordMsg body]
    match s.2 with
    | some e => (s.1, wire, some e)
    | none =>
      match receivePgMsg IdentifiesAuth wire with
      | none => ({ s.1 with IOError := some PgErr.ioRead }, [], some PgErr.ioRead)
      | some (list, rem) => (s.1, rem, checkAuthList list)
  else (pi, wire, none)

/-- One round of the reflected CRC-32 (IEEE polynomial 0xEDB88320), as in
Go `hash/crc32.ChecksumIEEE`. -/
def crc32Round (c : Nat) : Nat :=
  if c % 2 = 1 then (c / 2) ^^^ 3988292384 else c / 2

def crc32Byte (c : Nat) (b : Byte) : Nat :=
  crc32Round (crc32Round (crc32Round (crc32Round
    (crc32Round (crc32Round (crc32Round (crc32Round (c ^^^ b))))))))

/-- Go `crc32.ChecksumIEEE`: initial value and final complement are
0xFFFFFFFF. -/
def crc32IEEE (bs : List Byte) : Nat :=
  (bs.foldl crc32Byte 4294967295) ^^^ 4294967295

/-- Lowercase hex digit byte. -/
def hexDigit (n : Nat) : Byte := if n < 10 then 48 + n else 87 + n

/-- Fuel-indexed hex rendering; the fuel only bounds the digit count. -/
def natToHexAux : Nat → Nat → List Byte → List Byte
  | 0, _, acc => acc
  | fuel + 1, n, acc =>
    if n = 0 then acc else natToHexAux fuel (n / 16) (hexDigit (n % 16) :: acc)

/-- Go `fmt.Sprintf` with the hex verb on a uint32: lowercase, no leading
zeros, a single 0 digit for zero. -/
def natToHex (n : Nat) : List Byte :=
  if n = 0 then [48] else natToHexAux (n + 1) n []

/-- The server-side statement name (source `NewPgStmt`): the hex rendering
of the CRC-32 of the SQL text. -/
def stmtId (query : List Byte) : List Byte := natToHex (crc32IEEE query)

/-- Caller-side prepared statement (source struct `PgStmt`; the
`resultSig` rendezvous channel is concurrency plumbing and not
modelled). -/
structure PgStmt where
  identifies : List Byte
  sql : List Byte
  columns : List PgColumn
  parameterTypes : List Nat
  deriving DecidableEq, Repr

/-- The outer connection object owning the statement cache (source
`PgConn`; only the fields the claims touch). -/
structure PgConn where
  pio : PgIO
  stmts : List (List Byte × PgStmt)
  deriving DecidableEq, Repr

/-- Go map lookup over the modelled cache. -/
def stmtLookup : List (List Byte × PgStmt) → List Byte → Option PgStmt
  | [], _ => none
  | (k, v) :: rest, key => if k = key then some v else stmtLookup rest key

structure StmtOut where
  conn : PgConn
  wire : List PgMessage
  st : Option PgStmt
  err : Option PgErr
  deriving DecidableEq, Repr

/-- Source `NewPgStmt`: bad-connection guard; compute the CRC-32 name; on
a cache hit return the cached statement (the error named in the signature
is never assigned, so it is nil); on a miss run `Parse`, build the
statement and insert it into the cache unconditionally, returning `Parse`'s
error alongside it. -/
def NewPgStmt (wOk : Bool) (wire : List PgMessage) (conn : PgConn) (query : List Byte) : StmtOut :=
  if conn.pio.IOError.isSome then
    { conn := conn, wire := wire, st := none, err := some PgErr.badConn }
  else
    let id := stmtId query
    match stmtLookup conn.stmts id with
    | some st => { conn := conn, wire := wire, st := some st, err := none }
    | none =>
      let o := Parse wOk wire conn.pio id query
      let st : PgStmt :=
        { identifies := id, sql := query, columns := o.cols, parameterTypes := o.parameters }
      { conn := { pio := o.pi, stmts := (id, st) :: conn.stmts }, wire := o.wire,
        st := some st, err := o.err }

/-- Source `PgStmt.Exec`: bad-connection guard, then `ParseExec` on the
statement's name; the count and error are passed through. -/
def PgStmt.Exec (wOk : Bool) (wire : List PgMessage) (pi : PgIO) (st : PgStmt)
    (args : List (Option (List Byte))) : ExecOut :=
  if pi.IOError.isSome then { pi := pi, wire := wire, n := 0, err := some PgErr.badConn }
  else ParseExec wOk wire pi st.identifies args

/-- Source `PgStmt.Query`: no bad-connection guard; runs `ParseQuery` on
the statement's name, assigns its error to the named return... and then
returns the rows with a nil error, discarding the assigned error. -/
def PgStmt.Query (wOk : Bool) (wire : List PgMessage) (pi : PgIO) (st : PgStmt)
    (args : List (Option (List Byte))) : RowsOut :=
  let o := ParseQuery wOk wire pi st.identifies args
  { pi := o.pi, wire := o.wire, fieldLen := o.fieldLen, rows := o.rows, err := none }

/-- Source `PgStmt.Close`: bad-connection guard, then `CloseParse` on the
statement's name (the `resultSig` close is not modelled). -/
def PgStmt.Close (wOk : Bool) (wire : List PgMessage) (pi : PgIO) (st : PgStmt) : CloseOut :=
  if pi.IOError.isSome then { pi := pi, wire := wire, err := some PgErr.badConn }
  else CloseParse wOk wire pi st.identifies

/-- A concrete idle session used by concrete instances below. -/
def pi0 : PgIO :=
  { txStatus := 73, serverPid := 0, backendKey := 0, IOError := none, sent := [],
    connClosed := false, password := [112, 119], user := [117] }

/-- A session whose sticky I/O-error flag is set. -/
def piBad : PgIO := { pi0 with IOError := some PgErr.ioWrite }

/-- A concrete prepared statement handle. -/
def st0 : PgStmt := { identifies := [104], sql := [104], columns := [], parameterTypes := [] }

/-- A connection with the flag set and an empty statement cache. -/
def connBad : PgConn := { pio := piBad, stmts := [] }

/-- A connection with a clear flag and an empty statement cache. -/
def conn0 : PgConn := { pio := pi0, stmts := [] }

/-- Receiving on a wire whose first separator occurrence is `z` consumes
exactly the prefix up to and including `z`. -/
theorem receivePgMsg_split (sep : Byte) (pre : List PgMessage) (z : PgMessage)
    (rest : List PgMessage) (hz : z.id = sep) (hpre : ∀ m ∈ pre, m.id ≠ sep) :
    receivePgMsg sep (pre ++ z :: rest) = some (pre ++ [z], rest) := by
  induction pre with
  | nil => simp [receivePgMsg, hz]
  | cons a as ih =>
      have ha : a.id ≠ sep := hpre a (by simp)
      have ih2 := ih (fun m hm => hpre m (by simp [hm]))
      simp [receivePgMsg, ha, ih2]

theorem qnaStep_tx (b : QNAAcc) (v : PgMessage) (hv : v.id = IdentifiesReadyForQuery) :
    (qnaStep b v).tx = v.content.headD 0 := by
  simp [qnaStep, hv, IdentifiesReadyForQuery, IdentifiesErrorResponse, IdentifiesDataRow,
    IdentifiesRowDescription]

theorem pStep_tx (b : PAcc) (v : PgMessage) (hv : v.id = IdentifiesReadyForQuery) :
    (pStep b v).tx = v.content.headD 0 := by
  simp [pStep, hv, IdentifiesReadyForQuery, IdentifiesErrorResponse,
    IdentifiesParameterDescription, IdentifiesRowDescription]

theorem peStep_tx (b : PEAcc) (v : PgMessage) (hv : v.id = IdentifiesReadyForQuery) :
    (peStep b v).tx = v.content.headD 0 := by
  simp [peStep, hv, IdentifiesReadyForQuery, IdentifiesErrorResponse, IdentifiesCommandComplete]

theorem pqStep_tx (b : PQAcc) (v : PgMessage) (hv : v.id = IdentifiesReadyForQuery) :
    (pqStep b v).tx = v.content.headD 0 := by
  simp [pqStep, hv, IdentifiesReadyForQuery, IdentifiesErrorResponse, IdentifiesDataRow]

theorem cpStep_tx (b : Option PgErr × Byte) (v : PgMessage) (hv : v.id = IdentifiesReadyForQuery) :
    (cpStep b v).2 = v.content.headD 0 := by
  simp [cpStep, hv]

theorem queryNoArgs_drain (pi : PgIO) (query : List Byte) (pre rest : List PgMessage)
    (z : PgMessage) (hz : z.id = IdentifiesReadyForQuery)
    (hpre : ∀ m ∈ pre, m.id ≠ IdentifiesReadyForQuery) :
    (QueryNoArgs true (pre ++ z :: rest) pi query).wire = rest ∧
    (QueryNoArgs true (pre ++ z :: rest) pi query).pi.txStatus = z.content.headD 0 := by
  have hs := receivePgMsg_split IdentifiesReadyForQuery pre z rest hz hpre
  simp [QueryNoArgs, send, hs, qnaLoop, List.foldl_append, qnaStep_tx, hz]

theorem parse_drain (pi : PgIO) (name query : List Byte) (pre rest : List PgMessage)
    (z : PgMessage) (hz : z.id = IdentifiesReadyForQuery)
    (hpre : ∀ m ∈ pre, m.id ≠ IdentifiesReadyForQuery) :
    (Parse true (pre ++ z :: rest) pi name query).wire = rest ∧
    (Parse true (pre ++ z :: rest) pi name query).pi.txStatus = z.content.headD 0 := by
  have hs := receivePgMsg_split IdentifiesReadyForQuery pre z rest hz hpre
  simp [Parse, send, hs, pLoop, List.foldl_append, pStep_tx, hz]

theorem parseExec_drain (pi : PgIO) (name : List Byte) (args : List (Option (List Byte)))
    (pre rest : List PgMessage) (z : PgMessage) (hz : z.id = IdentifiesReadyForQuery)
    (hpre : ∀ m ∈ pre, m.id ≠ IdentifiesReadyForQuery) :
    (ParseExec true (pre ++ z :: rest) pi name args).wire = rest ∧
    (ParseExec true (pre ++ z :: rest) pi name args).pi.txStatus = z.content.headD 0 := by
  have hs := receivePgMsg_split IdentifiesReadyForQuery pre z rest hz hpre
  simp [ParseExec, send, hs, peLoop, List.foldl_append, peStep_tx, hz]

theorem parseQuery_drain (pi : PgIO) (name : List Byte) (args : List (Option (List Byte)))
    (pre rest : List PgMessage) (z : PgMessage) (hz : z.id = IdentifiesReadyForQuery)
    (hpre : ∀ m ∈ pre, m.id ≠ IdentifiesReadyForQuery) :
    (ParseQuery true (pre ++ z :: rest) pi name args).wire = rest ∧
    (ParseQuery true (pre ++ z :: rest) pi name args).pi.txStatus = z.content.headD 0 := by
  have hs := receivePgMsg_split IdentifiesReadyForQuery pre z rest hz hpre
  simp [ParseQuery, send, hs, pqLoop, List.foldl_append, pqStep_tx, hz]

theorem closeParse_drain (pi : PgIO) (name : List Byte) (pre rest : List PgMessage)
    (z : PgMessage) (hz : z.id = IdentifiesReadyForQuery)
    (hpre : ∀ m ∈ pre, m.id ≠ IdentifiesReadyForQuery) :
    (CloseParse true (pre ++ z :: rest) pi name).wire = rest ∧
    (CloseParse true (pre ++ z :: rest) pi name).pi.txStatus = z.content.headD 0 := by
  have hs := receivePgMsg_split IdentifiesReadyForQuery pre z rest hz hpre
  simp [CloseParse, send, hs, cpLoop, List.foldl_append, cpStep_tx, hz]

/-- C4: after any call returns against a response stream containing a
ReadyForQuery, the last backend message consumed from the wire is that
first ReadyForQuery (the remaining wire starts right after it), and the
locally stored transaction status equals its payload byte; this holds for
QueryNoArgs, Parse, ParseExec, ParseQuery and CloseParse alike, whether or
not an ErrorResponse occurred earlier in the stream. -/
theorem C4_drain_to_ready (pi : PgIO) (query name : List Byte)
    (args : List (Option (List Byte))) (pre rest : List PgMessage) (z : PgMessage)
    (hz : z.id = IdentifiesReadyForQuery)
    (hpre : ∀ m ∈ pre, m.id ≠ IdentifiesReadyForQuery) :
    ((QueryNoArgs true (pre ++ z :: rest) pi query).wire = rest ∧
      (QueryNoArgs true (pre ++ z :: rest) pi query).pi.txStatus = z.content.headD 0) ∧
    ((Parse true (pre ++ z :: rest) pi name query).wire = rest ∧
      (Parse true (pre ++ z :: rest) pi name query).pi.txStatus = z.content.headD 0) ∧
    ((ParseExec true (pre ++ z :: rest) pi name args).wire = rest ∧
      (ParseExec true (pre ++ z :: rest) pi name args).pi.txStatus = z.content.headD 0) ∧
    ((ParseQuery true (pre ++ z :: rest) pi name args).wire = rest ∧
      (ParseQuery true (pre ++ z :: rest) pi name args).pi.txStatus = z.content.headD 0) ∧
    ((CloseParse true (pre ++ z :: rest) pi name).wire = rest ∧
      (CloseParse true (pre ++ z :: rest) pi name).pi.txStatus = z.content.headD 0) :=
  ⟨queryNoArgs_drain pi query pre rest z hz hpre,
   parse_drain pi name query pre rest z hz hpre,
   parseExec_drain pi name args pre rest z hz hpre,
   parseQuery_drain pi name args pre rest z hz hpre,
   closeParse_drain pi name pre rest z hz hpre⟩

/-- Witness for C4 at a concrete stream: an ErrorResponse followed by
ReadyForQuery with status byte 84. -/
theorem C4_drain_to_ready_witness :
    ((QueryNoArgs true ([⟨IdentifiesErrorResponse, [77, 0]⟩] ++ ⟨IdentifiesReadyForQuery, [84]⟩ :: []) pi0 [113]).wire = [] ∧
      (QueryNoArgs true ([⟨IdentifiesErrorResponse, [77, 0]⟩] ++ ⟨IdentifiesReadyForQuery, [84]⟩ :: []) pi0 [113]).pi.txStatus = (⟨IdentifiesReadyForQuery, [84]⟩ : PgMessage).content.headD 0) ∧
    ((Parse true ([⟨IdentifiesErrorResponse, [77, 0]⟩] ++ ⟨IdentifiesReadyForQuery, [84]⟩ :: []) pi0 [104] [113]).wire = [] ∧
      (Parse true ([⟨IdentifiesErrorResponse, [77, 0]⟩] ++ ⟨IdentifiesReadyForQuery, [84]⟩ :: []) pi0 [104] [113]).pi.txStatus = (⟨IdentifiesReadyForQuery, [84]⟩ : PgMessage).content.headD 0) ∧
    ((ParseExec true ([⟨IdentifiesErrorResponse, [77, 0]⟩] ++ ⟨IdentifiesReadyForQuery, [84]⟩ :: []) pi0 [104] []).wire = [] ∧
      (ParseExec true ([⟨IdentifiesErrorResponse, [77, 0]⟩] ++ ⟨IdentifiesReadyForQuery, [84]⟩ :: []) pi0 [104] []).pi.txStatus = (⟨IdentifiesReadyForQuery, [84]⟩ : PgMessage).content.headD 0) ∧
    ((ParseQuery true ([⟨IdentifiesErrorResponse, [77, 0]⟩] ++ ⟨IdentifiesReadyForQuery, [84]⟩ :: []) pi0 [104] []).wire = [] ∧
      (ParseQuery true ([⟨IdentifiesErrorResponse, [77, 0]⟩] ++ ⟨IdentifiesReadyForQuery, [84]⟩ :: []) pi0 [104] []).pi.txStatus = (⟨IdentifiesReadyForQuery, [84]⟩ : PgMessage).content.headD 0) ∧
    ((CloseParse true ([⟨IdentifiesErrorResponse, [77, 0]⟩] ++ ⟨IdentifiesReadyForQuery, [84]⟩ :: []) pi0 [104]).wire = [] ∧
      (CloseParse true ([⟨IdentifiesErrorResponse, [77, 0]⟩] ++ ⟨IdentifiesReadyForQuery, [84]⟩ :: []) pi0 [104]).pi.txStatus = (⟨IdentifiesReadyForQuery, [84]⟩ : PgMessage).content.headD 0) :=
  C4_drain_to_ready pi0 [113] [104] [] [⟨IdentifiesErrorResponse, [77, 0]⟩] []
    ⟨IdentifiesReadyForQuery, [84]⟩ (by decide) (by decide)

/-- C1 (code bug): against the stream ErrorResponse then ReadyForQuery,
every PgIO operation drains to ReadyForQuery and returns the captured
server error; `PgStmt.Exec` forwards it; but `PgStmt.Query` — although its
`ParseQuery` call drains and captures the very same error — returns a nil
error to its caller, discarding the assigned error at its final return. -/
theorem C1_pgstmt_query_drops_server_error :
    (ParseQuery true [⟨IdentifiesErrorResponse, [77, 55, 0]⟩, ⟨IdentifiesReadyForQuery, [73]⟩] pi0 [104] []).err = some (PgErr.server [77, 55, 0]) ∧
    (ParseQuery true [⟨IdentifiesErrorResponse, [77, 55, 0]⟩, ⟨IdentifiesReadyForQuery, [73]⟩] pi0 [104] []).wire = [] ∧
    (PgStmt.Exec true [⟨IdentifiesErrorResponse, [77, 55, 0]⟩, ⟨IdentifiesReadyForQuery, [73]⟩] pi0 st0 []).err = some (PgErr.server [77, 55, 0]) ∧
    (PgStmt.Query true [⟨IdentifiesErrorResponse, [77, 55, 0]⟩, ⟨IdentifiesReadyForQuery, [73]⟩] pi0 st0 []).err = none ∧
    (PgStmt.Query true [⟨IdentifiesErrorResponse, [77, 55, 0]⟩, ⟨IdentifiesReadyForQuery, [73]⟩] pi0 st0 []).wire = [] := by
  decide

/-- C2 (counterexample): with the sticky I/O-error flag already set,
`PgStmt.Query` and `QueryNoArgs` still hand bytes to the socket (the sent
trace grows) and neither returns the bad-connection error — refuting the
claim that every operation short-circuits without writing. -/
theorem C2_counterexample :
    (PgStmt.Query true [⟨IdentifiesReadyForQuery, [73]⟩] piBad st0 []).pi.sent ≠ piBad.sent ∧
    (PgStmt.Query true [⟨IdentifiesReadyForQuery, [73]⟩] piBad st0 []).err ≠ some PgErr.badConn ∧
    (QueryNoArgs true [⟨IdentifiesReadyForQuery, [73]⟩] piBad [113]).pi.sent ≠ piBad.sent ∧
    (QueryNoArgs true [⟨IdentifiesReadyForQuery, [73]⟩] piBad [113]).err ≠ some PgErr.badConn := by
  decide

/-- C2 (amended): only the driver-layer entry points that guard on the
flag short-circuit: with the flag set, `PgStmt.Exec`, `PgStmt.Close` and
`NewPgStmt` return the bad-connection error with the session, cache and
sent trace untouched; `PgStmt.Query` and the PgIO query methods perform no
such check and write to the socket regardless. -/
theorem C2_guarded_ops_short_circuit (pi : PgIO) (conn : PgConn) (st : PgStmt)
    (wire : List PgMessage) (args : List (Option (List Byte))) (wOk : Bool)
    (query : List Byte) (hpi : pi.IOError.isSome) (hconn : conn.pio.IOError.isSome) :
    PgStmt.Exec wOk wire pi st args = { pi := pi, wire := wire, n := 0, err := some PgErr.badConn } ∧
    PgStmt.Close wOk wire pi st = { pi := pi, wire := wire, err := some PgErr.badConn } ∧
    NewPgStmt wOk wire conn query = { conn := conn, wire := wire, st := none, err := some PgErr.badConn } := by
  simp [PgStmt.Exec, PgStmt.Close, NewPgStmt, hpi, hconn]

/-- Witness for the amended C2 at a concrete flagged session. -/
theorem C2_guarded_ops_short_circuit_witness :
    PgStmt.Exec true [] piBad st0 [] = { pi := piBad, wire := [], n := 0, err := some PgErr.badConn } ∧
    PgStmt.Close true [] piBad st0 = { pi := piBad, wire := [], err := some PgErr.badConn } ∧
    NewPgStmt true [] connBad [104] = { conn := connBad, wire := [], st := none, err := some PgErr.badConn } :=
  C2_guarded_ops_short_circuit piBad connBad st0 [] [] true [104] (by decide) (by decide)

/-- C5 (counterexample): an Authentication message with code 7 (neither 0,
3 nor 5) is silently accepted: `auth` sends nothing and returns without
error, so the handshake continues instead of failing. -/
theorem C5_counterexample :
    auth (fun b => b) true [] pi0 ⟨IdentifiesAuth, [0, 0, 0, 7]⟩ = (pi0, [], none) := by
  decide

/-- C5 (amended): the authentication switch has no default case, so any
code other than 0, 3 and 5 is ignored: `auth` returns with no error, no
message sent and the wire untouched, and the handshake proceeds. -/
theorem C5_unsupported_code_ignored (md5hex : List Byte → List Byte) (wOk : Bool)
    (wire : List PgMessage) (pi : PgIO) (msg : PgMessage)
    (h0 : beVal (msg.content.take 4) ≠ 0) (h3 : beVal (msg.content.take 4) ≠ 3)
    (h5 : beVal (msg.content.take 4) ≠ 5) :
    auth md5hex wOk wire pi msg = (pi, wire, none) := by
  simp [auth, h0, h3, h5]

/-- Witness for the amended C5 at code 7. -/
theorem C5_unsupported_code_ignored_witness :
    auth (fun b => [53] ++ b) true [⟨IdentifiesReadyForQuery, [73]⟩] pi0 ⟨IdentifiesAuth, [0, 0, 0, 7]⟩ =
      (pi0, [⟨IdentifiesReadyForQuery, [73]⟩], none) :=
  C5_unsupported_code_ignored (fun b => [53] ++ b) true [⟨IdentifiesReadyForQuery, [73]⟩] pi0
    ⟨IdentifiesAuth, [0, 0, 0, 7]⟩ (by decide) (by decide) (by decide)

/-- C7: NULL round-trips distinguishably.  In the Bind message built by
`ParseExec` a nil argument is serialised as the int32 −1 (bytes
255 255 255 255) with no value bytes while a present empty value gets
length 0; in DataRow parsing by `QueryNoArgs` a column length of
4294967295 decodes to an absent value and a length of 0 to a present empty
value, and the two decodes differ both in the value and in the recorded
per-column length. -/
theorem C7_null_roundtrip :
    (ParseExec true [⟨IdentifiesReadyForQuery, [73]⟩] pi0 [104] [none, some []]).pi.sent =
      pi0.sent ++ [⟨IdentifiesBind, [0, 104, 0, 0, 0, 0, 2, 255, 255, 255, 255, 0, 0, 0, 0, 0, 0]⟩, executeMsg, syncMsg] ∧
    bindArgBytes none = [255, 255, 255, 255] ∧
    bindArgBytes (some []) = [0, 0, 0, 0] ∧
    (QueryNoArgs true [⟨IdentifiesDataRow, [0, 2, 255, 255, 255, 255, 0, 0, 0, 0]⟩, ⟨IdentifiesReadyForQuery, [84]⟩] pi0 [113]).rows = [[none, some []]] ∧
    (QueryNoArgs true [⟨IdentifiesDataRow, [0, 2, 255, 255, 255, 255, 0, 0, 0, 0]⟩, ⟨IdentifiesReadyForQuery, [84]⟩] pi0 [113]).fieldLen = [[4294967295, 0]] ∧
    (none : Option (List Byte)) ≠ some [] := by
  decide

/-- C9 (counterexample): when the Terminate send succeeds, the socket is
not closed and the sticky flag is not set, refuting the claim that
`Terminate` does both in every case. -/
theorem C9_counterexample :
    (Terminate true pi0).1.connClosed = false ∧ (Terminate true pi0).1.IOError = none := by
  decide

/-- C9 (amended): `Terminate` always sends the Terminate message, but
closes the socket and sets the sticky flag to the bad-connection error only
when the send fails (returning the write error itself); on a successful
send the socket stays open and the flag stays clear. -/
theorem C9_terminate_conditional_close (pi : PgIO) :
    Terminate true pi = ({ pi with sent := pi.sent ++ [terminateMsg], IOError := none }, none) ∧
    Terminate false pi =
      ({ pi with sent := pi.sent ++ [terminateMsg], IOError := some PgErr.badConn, connClosed := true }, some PgErr.ioWrite) := by
  simp [Terminate, send]

theorem cStr_append_zero (tag : List Byte) (h : (0 : Nat) ∉ tag) : cStr (tag ++ [0]) = tag := by
  induction tag with
  | nil => simp [cStr]
  | cons c cs ih =>
      have hc : c ≠ 0 := fun e => h (by simp [e])
      have ih2 := ih (fun hm => h (List.mem_cons_of_mem _ hm))
      simp [cStr, List.takeWhile_cons, hc] at ih2 ⊢
      exact ih2

theorem atoi_of_digits (s : List Byte) (m : Nat) (h : digitsVal s = some m) :
    atoi s = min (m : Int) 9223372036854775807 := by
  cases s with
  | nil => simp [digitsVal] at h
  | cons c cs =>
      have hc : 48 ≤ c ∧ c ≤ 57 := by
        by_cases hcc : 48 ≤ c ∧ c ≤ 57
        · exact hcc
        · simp [digitsVal, digitsValAux, hcc] at h
      have h45 : c ≠ 45 := by intro e; subst e; exact absurd hc.1 (by decide)
      have h43 : c ≠ 43 := by intro e; subst e; exact absurd hc.1 (by decide)
      simp [atoi, h45, h43, h]

/-- C3 (counterexample): the tag INSERT 0 5 has three space-separated
fields, so `ParseExec` leaves the affected-row count at 0 instead of
returning 5 as the claim states. -/
theorem C3_counterexample :
    (ParseExec true [⟨IdentifiesCommandComplete, [73, 78, 83, 69, 82, 84, 32, 48, 32, 53, 0]⟩, ⟨IdentifiesReadyForQuery, [73]⟩] pi0 [104] []).n = 0 ∧
    (ParseExec true [⟨IdentifiesCommandComplete, [73, 78, 83, 69, 82, 84, 32, 48, 32, 53, 0]⟩, ⟨IdentifiesReadyForQuery, [73]⟩] pi0 [104] []).n ≠ 5 := by
  decide

/-- C3 (amended): the affected-row count is taken from the command tag only
when the tag has exactly two space-separated fields, in which case it is
the integer value of the second field as strconv.Atoi parses it — clamped
to the int64 maximum on range overflow, the error being discarded — so
UPDATE 3 yields 3; a tag with any other number of fields, such as
INSERT 0 5, leaves the count at 0. -/
theorem C3_two_field_tag (tag f1 f2 : List Byte) (m : Nat) (s : Byte)
    (rest : List PgMessage) (pi : PgIO) (name : List Byte)
    (args : List (Option (List Byte))) (h0 : (0 : Nat) ∉ tag)
    (hsp : splitSp tag = [f1, f2]) (hd : digitsVal f2 = some m) :
    (ParseExec true (⟨IdentifiesCommandComplete, tag ++ [0]⟩ :: ⟨IdentifiesReadyForQuery, [s]⟩ :: rest) pi name args).n = min (m : Int) 9223372036854775807 := by
  have hcs := cStr_append_zero tag h0
  have hat := atoi_of_digits f2 m hd
  simp [ParseExec, send, receivePgMsg, peLoop, peStep, hcs, hsp, hat,
    IdentifiesCommandComplete, IdentifiesReadyForQuery, IdentifiesErrorResponse]

/-- Witness for the amended C3: the tag UPDATE 3 yields 3. -/
theorem C3_two_field_tag_witness :
    (ParseExec true (⟨IdentifiesCommandComplete, [85, 80, 68, 65, 84, 69, 32, 51] ++ [0]⟩ :: ⟨IdentifiesReadyForQuery, [73]⟩ :: []) pi0 [104] []).n = min ((3 : Nat) : Int) 9223372036854775807 :=
  C3_two_field_tag [85, 80, 68, 65, 84, 69, 32, 51] [85, 80, 68, 65, 84, 69] [51] 3 73 [] pi0
    [104] [] (by decide) (by decide) (by decide)

theorem checkAuthList_split (pre : List PgMessage) (am : PgMessage)
    (hpre : ∀ m ∈ pre, m.id ≠ IdentifiesAuth) (ham : am.id = IdentifiesAuth) :
    checkAuthList (pre ++ [am]) =
      if beVal (am.content.take 4) = 0 then none else some PgErr.unexpectedAuth := by
  induction pre with
  | nil =>
      by_cases h : beVal (am.content.take 4) = 0
      · simp [checkAuthList, ham, h]
      · simp [checkAuthList, ham, h]
  | cons a as ih =>
      have ha : a.id ≠ IdentifiesAuth := hpre a (by simp)
      simp [checkAuthList, ha, ih (fun m hm => hpre m (by simp [hm]))]

/-- C6: on an MD5 request (Authentication code 5) the engine reads the
4-byte salt after the code and sends exactly one PasswordMessage whose
NUL-terminated body is md5 followed by the salted double hash of password
and user, then receives until the next Authentication message, failing
with the unexpected-authentication error unless that message's code is 0.
`md5hex` is the hex-rendered MD5 digest of the source's `Md5` helper. -/
theorem C6_md5_auth (md5hex : List Byte → List Byte) (pi : PgIO) (salt : List Byte)
    (pre rest : List PgMessage) (am : PgMessage) (hsalt : salt.length = 4)
    (ham : am.id = IdentifiesAuth) (hpre : ∀ m ∈ pre, m.id ≠ IdentifiesAuth) :
    auth md5hex true (pre ++ am :: rest) pi ⟨IdentifiesAuth, addInt32 5 ++ salt⟩ =
      ({ pi with sent := pi.sent ++ [passwordMsg (md5Lit ++ md5hex (md5hex (pi.password ++ pi.user) ++ salt))], IOError := none },
        rest,
        if beVal (am.content.take 4) = 0 then none else some PgErr.unexpectedAuth) := by
  have h5 : addInt32 5 = [0, 0, 0, 5] := by decide
  have hs := receivePgMsg_split IdentifiesAuth pre am rest ham hpre
  have hsl : salt.take 4 = salt := by rw [← hsalt]; exact List.take_length salt
  have hca := checkAuthList_split pre am hpre ham
  simp [auth, send, h5, hs, hsl, hca, beVal]

/-- Witness for C6: salt 01 02 03 04 and a success Authentication reply. -/
theorem C6_md5_auth_witness :
    auth (fun b => b) true ([] ++ ⟨IdentifiesAuth, [0, 0, 0, 0]⟩ :: []) pi0 ⟨IdentifiesAuth, addInt32 5 ++ [1, 2, 3, 4]⟩ =
      ({ pi0 with sent := pi0.sent ++ [passwordMsg (md5Lit ++ (fun (b : List Byte) => b) ((fun (b : List Byte) => b) (pi0.password ++ pi0.user) ++ [1, 2, 3, 4]))], IOError := none },
        [],
        if beVal ((⟨IdentifiesAuth, [0, 0, 0, 0]⟩ : PgMessage).content.take 4) = 0 then none else some PgErr.unexpectedAuth) :=
  C6_md5_auth (fun b => b) pi0 [1, 2, 3, 4] [] [] ⟨IdentifiesAuth, [0, 0, 0, 0]⟩
    (by decide) (by decide) (by decide)

theorem parse_pio_clean (pi : PgIO) (name query : List Byte) (pre rest : List PgMessage)
    (z : PgMessage) (hz : z.id = IdentifiesReadyForQuery)
    (hpre : ∀ m ∈ pre, m.id ≠ IdentifiesReadyForQuery) :
    (Parse true (pre ++ z :: rest) pi name query).pi.IOError = none := by
  have hs := receivePgMsg_split IdentifiesReadyForQuery pre z rest hz hpre
  simp [Parse, send, hs]

/-- C8: preparing the same SQL twice on one connection yields the same
server-side statement name — the hex rendering of the CRC-32 of the SQL
text — and the second `NewPgStmt` call returns the cached statement
leaving connection, cache, wire and sent trace untouched: no Parse traffic
is issued. -/
theorem C8_statement_cache_identity (conn : PgConn) (query : List Byte)
    (pre rest : List PgMessage) (z : PgMessage) (o1 : StmtOut) (st1 : PgStmt)
    (hio : conn.pio.IOError = none)
    (hmiss : stmtLookup conn.stmts (stmtId query) = none)
    (hz : z.id = IdentifiesReadyForQuery)
    (hpre : ∀ m ∈ pre, m.id ≠ IdentifiesReadyForQuery)
    (ho : o1 = NewPgStmt true (pre ++ z :: rest) conn query)
    (hst : o1.st = some st1) :
    st1.identifies = natToHex (crc32IEEE query) ∧
    NewPgStmt true o1.wire o1.conn query =
      { conn := o1.conn, wire := o1.wire, st := some st1, err := none } := by
  have hclean := parse_pio_clean conn.pio (stmtId query) query pre rest z hz hpre
  subst ho
  simp [NewPgStmt, hio, hmiss] at hst ⊢
  subst hst
  constructor
  · simp [stmtId]
  · simp [hclean, stmtLookup]

/-- Witness for C8 with the SQL text a and a bare ReadyForQuery reply. -/
theorem C8_statement_cache_identity_witness :
    (⟨stmtId [97], [97], [], []⟩ : PgStmt).identifies = natToHex (crc32IEEE [97]) ∧
    NewPgStmt true (NewPgStmt true ([] ++ ⟨IdentifiesReadyForQuery, [73]⟩ :: []) conn0 [97]).wire
        (NewPgStmt true ([] ++ ⟨IdentifiesReadyForQuery, [73]⟩ :: []) conn0 [97]).conn [97] =
      { conn := (NewPgStmt true ([] ++ ⟨IdentifiesReadyForQuery, [73]⟩ :: []) conn0 [97]).conn,
        wire := (NewPgStmt true ([] ++ ⟨IdentifiesReadyForQuery, [73]⟩ :: []) conn0 [97]).wire,
        st := some ⟨stmtId [97], [97], [], []⟩, err := none } :=
  C8_statement_cache_identity conn0 [97] [] [] ⟨IdentifiesReadyForQuery, [73]⟩
    (NewPgStmt true ([] ++ ⟨IdentifiesReadyForQuery, [73]⟩ :: []) conn0 [97])
    ⟨stmtId [97], [97], [], []⟩ (by decide) (by decide) (by decide) (by decide) rfl (by decide)

/-- C10: if `Parse` fails while preparing a new statement (here with a
server ErrorResponse), `NewPgStmt` still inserts the statement into the
cache and returns the error; a second call with the same SQL then finds the
cached, never-successfully-parsed statement and returns it with a nil
error, leaving the connection, cache and wire untouched — no Parse
retry. -/
theorem C10_failed_parse_cached (conn : PgConn) (query ep : List Byte) (s : Byte)
    (rest : List PgMessage) (o1 : StmtOut)
    (hio : conn.pio.IOError = none)
    (hmiss : stmtLookup conn.stmts (stmtId query) = none)
    (ho : o1 = NewPgStmt true (⟨IdentifiesErrorResponse, ep⟩ :: ⟨IdentifiesReadyForQuery, [s]⟩ :: rest) conn query) :
    o1.err = some (PgErr.server ep) ∧
    o1.st.isSome = true ∧
    stmtLookup o1.conn.stmts (stmtId query) = o1.st ∧
    NewPgStmt true o1.wire o1.conn query =
      { conn := o1.conn, wire := o1.wire, st := o1.st, err := none } := by
  subst ho
  simp [NewPgStmt, hio, hmiss, Parse, send, receivePgMsg, pLoop, pStep, ParseErrorM,
    stmtLookup, IdentifiesErrorResponse, IdentifiesReadyForQuery,
    IdentifiesParameterDescription, IdentifiesRowDescription]

/-- Witness for C10: a Parse round answered by an ErrorResponse then
ReadyForQuery. -/
theorem C10_failed_parse_cached_witness :
    (NewPgStmt true (⟨IdentifiesErrorResponse, [77, 0]⟩ :: ⟨IdentifiesReadyForQuery, [73]⟩ :: []) conn0 [97]).err = some (PgErr.server [77, 0]) ∧
    (NewPgStmt true (⟨IdentifiesErrorResponse, [77, 0]⟩ :: ⟨IdentifiesReadyForQuery, [73]⟩ :: []) conn0 [97]).st.isSome = true ∧
    stmtLookup (NewPgStmt true (⟨IdentifiesErrorResponse, [77, 0]⟩ :: ⟨IdentifiesReadyForQuery, [73]⟩ :: []) conn0 [97]).conn.stmts (stmtId [97]) =
      (NewPgStmt true (⟨IdentifiesErrorResponse, [77, 0]⟩ :: ⟨IdentifiesReadyForQuery, [73]⟩ :: []) conn0 [97]).st ∧
    NewPgStmt true (NewPgStmt true (⟨IdentifiesErrorResponse, [77, 0]⟩ :: ⟨IdentifiesReadyForQuery, [73]⟩ :: []) conn0 [97]).wire
        (NewPgStmt true (⟨IdentifiesErrorResponse, [77, 0]⟩ :: ⟨IdentifiesReadyForQuery, [73]⟩ :: []) conn0 [97]).conn [97] =
      { conn := (NewPgStmt true (⟨IdentifiesErrorResponse, [77, 0]⟩ :: ⟨IdentifiesReadyForQuery, [73]⟩ :: []) conn0 [97]).conn,
        wire := (NewPgStmt true (⟨IdentifiesErrorResponse, [77, 0]⟩ :: ⟨IdentifiesReadyForQuery, [73]⟩ :: []) conn0 [97]).wire,
        st := (NewPgStmt true (⟨IdentifiesErrorResponse, [77, 0]⟩ :: ⟨IdentifiesReadyForQuery, [73]⟩ :: []) conn0 [97]).st, err := none } :=
  C10_failed_parse_cached conn0 [97] [77, 0] 73 []
    (NewPgStmt true (⟨IdentifiesErrorResponse, [77, 0]⟩ :: ⟨IdentifiesReadyForQuery, [73]⟩ :: []) conn0 [97])
    (by decide) (by decide) rfl

end Pg
